import Mathlib

/-!
Shallow embedding of the interactive configuration module of the
SkySingh04/fractal repository (package `config`, two variants: the full
registry-driven file and a simpler two-key file).

Modelling choices:
* The viper settings store is a key/value document: `Store := String → Option CVal`,
  with `viper.Set` as pointwise update and `viper.WriteConfigAs` writing the whole
  store to the file (`Option Store`, `none` meaning no readable file).
* The interactive prompt channel (promptui) is a list of responses,
  `PromptIn := List (Option String)`; `none` (or exhaustion) models an aborted
  prompt, `some s` models the text the user entered.
* Go values seen through `reflect` are modelled by `GoType`: primitive kinds,
  structs with named ordered fields, slices, maps, and pointers.
* Go `map[string]interface{}` documents are association lists `Doc`;
  the values occurring in this module are strings and string-valued maps (`CVal`).
-/

/-- A configuration value stored in the settings store: either a scalar string
or a mapping of field name to string (the shapes this module produces). -/
inductive CVal where
  | str : String → CVal
  | smap : List (String × String) → CVal
deriving DecidableEq

/-- A configuration document: ordered association list of top-level keys. -/
abbrev Doc := List (String × CVal)

/-- The process-global viper settings store, as a key/value map. -/
abbrev Store := String → Option CVal

/-- The store with no keys set. -/
def stEmpty : Store := fun _ => none

/-- `viper.Set key value` on the store. -/
def setKey (st : Store) (k : String) (v : CVal) : Store :=
  fun q => if q = k then some v else st q

/-- `viper.GetString key`: the stored string, or `""` when the key is absent
or not a string. -/
def getString (st : Store) (k : String) : String :=
  match st k with
  | some (.str s) => s
  | _ => ""

/-- `viper.GetStringMap key`: the stored mapping, or the empty mapping when the
key is absent or not a mapping. -/
def getStringMap (st : Store) (k : String) : List (String × String) :=
  match st k with
  | some (.smap m) => m
  | _ => []

/-- Lookup in an association list (Go map read `m[k]`). -/
def assocLookup {α : Type} : List (String × α) → String → Option α
  | [], _ => none
  | (k, v) :: rest, q => if q = k then some v else assocLookup rest q

/-- The interactive channel: one entry per prompt, `none` = aborted. -/
abbrev PromptIn := List (Option String)

/-- `prompt.Run()`: consume the next response; abort on `none` or exhaustion. -/
def promptRun (inp : PromptIn) : Except String (String × PromptIn) :=
  match inp with
  | [] => .error "prompt aborted"
  | none :: _ => .error "prompt aborted"
  | some s :: rest => .ok (s, rest)

/-- A Go value/type as seen through `reflect`: primitive kinds with a printed
type label, structs with named fields in declaration order, slices, maps,
pointers. -/
inductive GoType where
  | prim : String → GoType
  | structTy : String → List (String × GoType) → GoType
  | sliceTy : GoType → GoType
  | mapTy : GoType → GoType → GoType
  | ptrTy : GoType → GoType

/-- The printed form of a reflected type (the `%s` of `fmt.Sprintf` on a
`reflect.Type`). -/
def typeLabel : GoType → String
  | .prim l => l
  | .structTy n _ => n
  | .sliceTy e => "[]" ++ typeLabel e
  | .mapTy k v => "map[" ++ typeLabel k ++ "]" ++ typeLabel v
  | .ptrTy e => "*" ++ typeLabel e

/-- `val.Elem()` when the reflected value is a pointer (`readIntegrationFields`
dereferences exactly once). -/
def derefPtr : GoType → GoType
  | .ptrTy e => e
  | t => t

/-- `val.Kind() == reflect.Struct`. -/
def isStructTy : GoType → Bool
  | .structTy _ _ => true
  | _ => false

/-- The registry adapter: named source and destination integration instances. -/
structure Registry where
  sources : List (String × GoType)
  destinations : List (String × GoType)

/-- `registry.GetSource` / `registry.GetDestination`: `none` models
`found = false`. -/
def lookupIntegration (reg : Registry) (isSource : Bool) (method : String) : Option GoType :=
  if isSource then assocLookup reg.sources method else assocLookup reg.destinations method

/-- The field-prompt loop of `readIntegrationFields`: one prompt per struct
field in declaration order, accumulating `config[fieldName] = value`.
Besides the result it returns the labels of the prompts actually issued. -/
def collectFieldsGo :
    List (String × GoType) → PromptIn → List (String × String) →
      Except String (List (String × String) × PromptIn) × List String
  | [], inp, acc => (.ok (acc, inp), [])
  | (fname, ftype) :: rest, inp, acc =>
    let label := "Enter " ++ fname ++ " (" ++ typeLabel ftype ++ ")"
    match promptRun inp with
    | .error _ => (.error ("failed to get value for field " ++ fname), [label])
    | .ok (value, inp') =>
      let step := collectFieldsGo rest inp' (acc ++ [(fname, value)])
      (step.1, label :: step.2)

/-- `readIntegrationFields`: look the integration up in the registry, reject a
non-struct (after one pointer dereference), then prompt for every field.
The second component is the list of field prompts issued. -/
def readIntegrationFields (reg : Registry) (method : String) (isSource : Bool) (inp : PromptIn) :
    Except String (List (String × String) × PromptIn) × List String :=
  match lookupIntegration reg isSource method with
  | none => (.error "integration not found in registry", [])
  | some integ =>
    match derefPtr integ with
    | .structTy _ fields => collectFieldsGo fields inp []
    | _ => (.error "integration is not a struct", [])

/-- The accumulation loop of `readRules`: read lines until an empty line. -/
def readRulesGo (ruleType : String) (inp : PromptIn) (acc : String) :
    Except String (String × PromptIn) :=
  match inp with
  | [] => .error ("failed to read " ++ ruleType)
  | none :: _ => .error ("failed to read " ++ ruleType)
  | some line :: rest =>
    if line = "" then .ok (acc, rest)
    else readRulesGo ruleType rest (acc ++ line ++ "\n")

/-- `readRules`: accumulate non-empty lines, each followed by a newline, until
the first empty line. -/
def readRules (ruleType : String) (inp : PromptIn) : Except String (String × PromptIn) :=
  readRulesGo ruleType inp ""

/-- `readErrorHandlingConfig`: one prompt for the strategy, wrapped in a
one-key mapping. -/
def readErrorHandlingConfig (inp : PromptIn) :
    Except String (List (String × String) × PromptIn) :=
  match promptRun inp with
  | .error _ => .error "failed to read error handling strategy"
  | .ok (strategy, rest) => .ok ([("strategy", strategy)], rest)

/-- `saveConfig`: `viper.Set` every key of the document on the global store,
then `viper.WriteConfigAs` the whole store; a write failure (`writeOk = false`)
is printed, not propagated, and leaves the previous file. -/
def saveConfig (config : Doc) (st : Store) (writeOk : Bool) (file : Option Store) :
    Store × Option Store :=
  let st' := config.foldl (fun s p => setKey s p.1 p.2) st
  if writeOk then (st', some st') else (st', file)

/-- `LoadConfig` (full variant): read the file and project the seven known
top-level keys into a document. -/
def LoadConfig (file : Option Store) : Except String Doc :=
  match file with
  | none => .error "failed to read config file"
  | some content =>
    .ok [("inputMethod", .str (getString content "inputMethod")),
         ("outputMethod", .str (getString content "outputMethod")),
         ("inputconfig", .smap (getStringMap content "inputconfig")),
         ("outputconfig", .smap (getStringMap content "outputconfig")),
         ("errorhandling", .smap (getStringMap content "errorhandling")),
         ("validations", .str (getString content "validations")),
         ("transformations", .str (getString content "transformations"))]

/-- The collection phase of `SetupConfigInteractively`: input-method select,
input fields, output-method select, output fields, validations,
transformations, error handling; then the assembled document. -/
def collectAll (reg : Registry) (inp : PromptIn) : Except String (Doc × PromptIn) :=
  match promptRun inp with
  | .error _ => .error "failed to get input method"
  | .ok (inputMethod, inp1) =>
    match (readIntegrationFields reg inputMethod true inp1).1 with
    | .error e => .error ("failed to get fields for input method: " ++ e)
    | .ok (inputconfig, inp2) =>
      match promptRun inp2 with
      | .error _ => .error "failed to get output method"
      | .ok (outputMethod, inp3) =>
        match (readIntegrationFields reg outputMethod false inp3).1 with
        | .error e => .error ("failed to get fields for output method: " ++ e)
        | .ok (outputconfig, inp4) =>
          match readRules "validations" inp4 with
          | .error e => .error e
          | .ok (validations, inp5) =>
            match readRules "transformations" inp5 with
            | .error e => .error e
            | .ok (transformations, inp6) =>
              match readErrorHandlingConfig inp6 with
              | .error e => .error e
              | .ok (errorhandling, inp7) =>
                .ok ([("inputMethod", .str inputMethod),
                      ("outputMethod", .str outputMethod),
                      ("inputconfig", .smap inputconfig),
                      ("outputconfig", .smap outputconfig),
                      ("validations", .str validations),
                      ("transformations", .str transformations),
                      ("errorhandling", .smap errorhandling)], inp7)

/-- The outcome of `SetupConfigInteractively`: the returned value, the global
store afterwards, and the config file afterwards. -/
structure SetupResult where
  result : Except String Doc
  store : Store
  file : Option Store

/-- `SetupConfigInteractively`: run the whole collection; on success assemble
the document, save it (`saveConfig`) and return it; on any failure propagate
the error with the store and file untouched. -/
def SetupConfigInteractively (reg : Registry) (inp : PromptIn) (st : Store)
    (file : Option Store) (writeOk : Bool) : SetupResult :=
  match collectAll reg inp with
  | .error e => ⟨.error e, st, file⟩
  | .ok (config, _) =>
    let saved := saveConfig config st writeOk file
    ⟨.ok config, saved.1, saved.2⟩

namespace SimpleVariant

/-- `LoadConfig` (simpler variant, `src/config/main.go`): read the file and
project only `inputMethod` and `outputMethod` as strings. -/
def LoadConfig (file : Option Store) : Except String (List (String × String)) :=
  match file with
  | none => .error "failed to read config file"
  | some content =>
    .ok [("inputMethod", getString content "inputMethod"),
         ("outputMethod", getString content "outputMethod")]

end SimpleVariant

/-- `Except.isOk` style discriminator used to state load success without a
binder. -/
def isOkDoc (r : Except String Doc) : Bool :=
  match r with
  | .ok _ => true
  | .error _ => false

/-- Lookup of a top-level key in the result of a load, `none` on load error. -/
def exceptLookup (r : Except String Doc) (k : String) : Option CVal :=
  match r with
  | .error _ => none
  | .ok d => assocLookup d k

/- Concrete fixtures used by witnesses and counterexamples. -/

/-- A registry with one source (CSV, one field) and one destination
(SQL, two fields). -/
def regW : Registry :=
  ⟨[("CSV", .structTy "CSVSource" [("Path", .prim "string")])],
   [("SQL", .structTy "SQLDestination" [("DSN", .prim "string"), ("Table", .prim "string")])]⟩

/-- A complete successful interactive session against `regW`. -/
def inpW : PromptIn :=
  [some "CSV", some "/in.csv", some "SQL", some "pg", some "out",
   some "a>0", some "", some "", some "STOP_ON_ERROR"]

/-- The document `SetupConfigInteractively` assembles from `regW`/`inpW`. -/
def docW : Doc :=
  [("inputMethod", .str "CSV"),
   ("outputMethod", .str "SQL"),
   ("inputconfig", .smap [("Path", "/in.csv")]),
   ("outputconfig", .smap [("DSN", "pg"), ("Table", "out")]),
   ("validations", .str "a>0\n"),
   ("transformations", .str ""),
   ("errorhandling", .smap [("strategy", "STOP_ON_ERROR")])]

/-- A registry whose only source is a struct with a slice field. -/
def regSlice : Registry :=
  ⟨[("S", .structTy "S" [("Items", .sliceTy (.prim "string"))])], []⟩

/-- A registry whose only source is not a struct at all. -/
def regPrim : Registry :=
  ⟨[("P", .prim "int")], []⟩

/-- A registry with no integrations. -/
def regEmpty : Registry := ⟨[], []⟩

/-- The value stored under a key in the written config file (`none` when there
is no file or the key is absent). -/
def getFileVal (file : Option Store) (k : String) : Option CVal :=
  match file with
  | none => none
  | some f => f k

/-- A first document to persist: one key `extra`. -/
def doc9a : Doc := [("extra", .str "v")]

/-- A second document to persist, not containing `extra`. -/
def doc9b : Doc := [("other", .str "w")]

/-- A concrete store holding two method strings and a nested mapping. -/
def c10 : Store :=
  setKey (setKey (setKey stEmpty "inputMethod" (.str "CSV"))
    "outputMethod" (.str "SQL")) "inputconfig" (.smap [("Path", "p")])

/- Helper lemmas. -/

/-- Reading back the key just set yields the value set. -/
theorem setKey_same (st : Store) (k : String) (v : CVal) : setKey st k v k = some v := by
  simp [setKey]

/-- Setting one key leaves every other key unchanged. -/
theorem setKey_other (st : Store) (k : String) (v : CVal) (q : String) (h : q ≠ k) :
    setKey st k v q = st q := by
  simp [setKey, h]

/-- When the input supplies one entered value per field, the field loop
succeeds: it pairs fields with values in declaration order and issues exactly
one prompt per field. -/
theorem collectFieldsGo_ok (fs : List (String × GoType)) (vals : List String)
    (rest : PromptIn) (acc : List (String × String)) (hlen : vals.length = fs.length) :
    collectFieldsGo fs (vals.map some ++ rest) acc
      = (.ok (acc ++ (fs.zip vals).map (fun p => (p.1.1, p.2)), rest),
         fs.map (fun f => "Enter " ++ f.1 ++ " (" ++ typeLabel f.2 ++ ")")) := by
  induction fs generalizing vals acc with
  | nil =>
    cases vals with
    | nil => simp [collectFieldsGo]
    | cons v vs => simp at hlen
  | cons f fs ih =>
    cases vals with
    | nil => simp at hlen
    | cons v vs =>
      obtain ⟨fname, ftype⟩ := f
      simp only [List.map_cons, List.cons_append, collectFieldsGo, promptRun]
      rw [ih vs (acc ++ [(fname, v)]) (by simpa using hlen)]
      simp

/-- The rule loop consumes lines up to and including the first empty line and
returns the accumulator extended by every line before it, each with a newline
appended. -/
theorem readRulesGo_spec (ruleType : String) (lines : List String) (rest : PromptIn)
    (acc : String) (h : "" ∈ lines) :
    readRulesGo ruleType (lines.map some ++ rest) acc
      = .ok ((lines.takeWhile (fun l => l != "")).foldl (fun a l => a ++ l ++ "\n") acc,
             ((lines.dropWhile (fun l => l != "")).tail.map some) ++ rest) := by
  induction lines generalizing acc with
  | nil => simp at h
  | cons l ls ih =>
    by_cases hl : l = ""
    · subst hl
      simp [readRulesGo, List.takeWhile, List.dropWhile]
    · have hmem : "" ∈ ls := by
        rcases List.mem_cons.mp h with h1 | h1
        · exact absurd h1.symm hl
        · exact h1
      simp only [List.map_cons, List.cons_append, readRulesGo, if_neg hl, List.append_eq]
      rw [ih _ hmem]
      have hbl : (l != "") = true := by simpa using hl
      simp [List.takeWhile, List.dropWhile, hbl]

/-- On a successful collection, `SetupConfigInteractively` returns the
assembled document and performs exactly one `saveConfig`. -/
theorem setup_eq_ok (reg : Registry) (inp : PromptIn) (st : Store) (file : Option Store)
    (writeOk : Bool) (config : Doc) (rest : PromptIn)
    (hc : collectAll reg inp = .ok (config, rest)) :
    SetupConfigInteractively reg inp st file writeOk
      = ⟨.ok config, (saveConfig config st writeOk file).1,
         (saveConfig config st writeOk file).2⟩ := by
  unfold SetupConfigInteractively
  rw [hc]

/-- On a failed collection, `SetupConfigInteractively` propagates the error
and leaves the store and the file untouched. -/
theorem setup_eq_err (reg : Registry) (inp : PromptIn) (st : Store) (file : Option Store)
    (writeOk : Bool) (e : String) (hc : collectAll reg inp = .error e) :
    SetupConfigInteractively reg inp st file writeOk = ⟨.error e, st, file⟩ := by
  unfold SetupConfigInteractively
  rw [hc]

/-- Every document assembled by a successful collection has exactly the seven
top-level keys of the source's map literal, in that order and with those value
shapes. -/
theorem collectAll_ok_shape (reg : Registry) (inp : PromptIn) (doc : Doc) (rest : PromptIn)
    (h : collectAll reg inp = .ok (doc, rest)) :
    ∃ im om ic oc va tr eh,
      doc = [("inputMethod", .str im), ("outputMethod", .str om),
             ("inputconfig", .smap ic), ("outputconfig", .smap oc),
             ("validations", .str va), ("transformations", .str tr),
             ("errorhandling", .smap eh)] := by
  unfold collectAll at h
  repeat' split at h
  any_goals exact Except.noConfusion h
  injection h with h'
  injection h' with h1 h2
  exact ⟨_, _, _, _, _, _, _, h1.symm⟩

/-- C2: for a registered integration whose instance is a struct with fields
F1..Fn, `readIntegrationFields` issues exactly n prompts, one per field in
declaration order, and returns the mapping that binds each field name to the
text entered at its prompt (empty input included, since the entered values are
arbitrary strings); the mapping's keys are exactly the field names. -/
theorem readIntegrationFields_collects_all_fields (reg : Registry) (method : String)
    (isSource : Bool) (name : String) (fs : List (String × GoType)) (vals : List String)
    (rest : PromptIn) (t : GoType)
    (hfound : lookupIntegration reg isSource method = some t)
    (hstruct : derefPtr t = .structTy name fs)
    (hlen : vals.length = fs.length) :
    readIntegrationFields reg method isSource (vals.map some ++ rest)
        = (.ok ((fs.zip vals).map (fun p => (p.1.1, p.2)), rest),
           fs.map (fun f => "Enter " ++ f.1 ++ " (" ++ typeLabel f.2 ++ ")"))
      ∧ ((fs.zip vals).map (fun p => (p.1.1, p.2))).map Prod.fst = fs.map Prod.fst := by
  constructor
  · unfold readIntegrationFields
    simp only [hfound, hstruct]
    simpa using collectFieldsGo_ok fs vals rest [] hlen
  · clear hfound hstruct
    induction fs generalizing vals with
    | nil => simp
    | cons f fs ih =>
      cases vals with
      | nil => simp at hlen
      | cons v vs => simpa using ih vs (by simpa using hlen)

theorem readIntegrationFields_collects_all_fields_witness :
    readIntegrationFields regW "SQL" false [some "pg", some "out"]
      = (.ok ([("DSN", "pg"), ("Table", "out")], []),
         ["Enter DSN (string)", "Enter Table (string)"]) :=
  (readIntegrationFields_collects_all_fields regW "SQL" false "SQLDestination"
    [("DSN", .prim "string"), ("Table", .prim "string")] ["pg", "out"] []
    (.structTy "SQLDestination" [("DSN", .prim "string"), ("Table", .prim "string")])
    rfl rfl rfl).1

/-- C3: rule collection concatenates every non-empty line entered before the
first empty line, each followed by a newline, stops at that empty line (the
remaining input is untouched), and returns the accumulated string. -/
theorem readRules_concatenates_until_empty (ruleType : String) (lines : List String)
    (rest : PromptIn) (h : "" ∈ lines) :
    readRules ruleType (lines.map some ++ rest)
      = .ok ((lines.takeWhile (fun l => l != "")).foldl (fun a l => a ++ l ++ "\n") "",
             ((lines.dropWhile (fun l => l != "")).tail.map some) ++ rest) :=
  readRulesGo_spec ruleType lines rest "" h

theorem readRules_concatenates_until_empty_witness :
    readRules "validations" [some "a>0", some "b<10", some ""] = .ok ("a>0\nb<10\n", [])
    ∧ readRules "validations" [some ""] = .ok ("", []) :=
  ⟨readRules_concatenates_until_empty "validations" ["a>0", "b<10", ""] [] (by simp),
   readRules_concatenates_until_empty "validations" [""] [] (by simp)⟩

/-- C4 counterexample: an integration whose instance is a struct with a slice
field (hence not a flat record) is not rejected: `readIntegrationFields`
prompts for the slice field and succeeds, instead of signalling a schema
error with no prompts as the claim requires. -/
theorem readIntegrationFields_slice_field_accepted :
    readIntegrationFields regSlice "S" true [some "x"]
      = (.ok ([("Items", "x")], []), ["Enter Items ([]string)"]) := rfl

/-- C4 amended: field introspection signals the schema error (with no field
prompts) exactly in the case where the instance, after one pointer
dereference, is not a struct at all; a struct instance is prompted field by
field whatever the field types are, nested records, slices and maps
included. -/
theorem readIntegrationFields_rejects_only_nonstruct (reg : Registry) (method : String)
    (isSource : Bool) (inp : PromptIn) (t : GoType)
    (hfound : lookupIntegration reg isSource method = some t) :
    (isStructTy (derefPtr t) = false →
        readIntegrationFields reg method isSource inp
          = (.error "integration is not a struct", []))
    ∧ (∀ name fs vals rest, derefPtr t = .structTy name fs → vals.length = fs.length →
        (readIntegrationFields reg method isSource (vals.map some ++ rest)).1
          = .ok ((fs.zip vals).map (fun p => (p.1.1, p.2)), rest)) := by
  constructor
  · intro hns
    unfold readIntegrationFields
    simp only [hfound]
    cases hd : derefPtr t with
    | structTy n fs => rw [hd] at hns; simp [isStructTy] at hns
    | prim l => rfl
    | sliceTy e => rfl
    | mapTy k v => rfl
    | ptrTy e => rfl
  · intro name fs vals rest hstruct hlen
    unfold readIntegrationFields
    simp only [hfound, hstruct]
    rw [collectFieldsGo_ok fs vals rest [] hlen]
    simp

theorem readIntegrationFields_rejects_only_nonstruct_witness :
    readIntegrationFields regPrim "P" true [some "x"]
        = (.error "integration is not a struct", [])
    ∧ (readIntegrationFields regSlice "S" true [some "x"]).1 = .ok ([("Items", "x")], []) :=
  ⟨(readIntegrationFields_rejects_only_nonstruct regPrim "P" true [some "x"]
      (.prim "int") rfl).1 rfl,
   (readIntegrationFields_rejects_only_nonstruct regSlice "S" true []
      (.structTy "S" [("Items", .sliceTy (.prim "string"))]) rfl).2
     "S" [("Items", .sliceTy (.prim "string"))] ["x"] [] rfl rfl⟩

/-- C5: when the integration name is absent from the registry (`found =
false`), `readIntegrationFields` fails with the registry-lookup error and
issues no field prompt at all. -/
theorem readIntegrationFields_unknown_integration_fails_early (reg : Registry)
    (method : String) (isSource : Bool) (inp : PromptIn)
    (h : lookupIntegration reg isSource method = none) :
    readIntegrationFields reg method isSource inp
      = (.error "integration not found in registry", []) := by
  unfold readIntegrationFields
  rw [h]

theorem readIntegrationFields_unknown_integration_fails_early_witness :
    readIntegrationFields regEmpty "Kafka" true []
      = (.error "integration not found in registry", []) :=
  readIntegrationFields_unknown_integration_fails_early regEmpty "Kafka" true [] rfl

/-- C6: the assembly is all-or-nothing: whenever `SetupConfigInteractively`
returns an error (any collection step failed or was aborted), the settings
store and the config file are exactly as they were before the call — no
partial document is saved, since `saveConfig` is only reached after every
collection step has succeeded. -/
theorem setup_allOrNothing (reg : Registry) (inp : PromptIn) (st : Store)
    (file : Option Store) (writeOk : Bool) (e : String)
    (h : (SetupConfigInteractively reg inp st file writeOk).result = .error e) :
    (SetupConfigInteractively reg inp st file writeOk).store = st
      ∧ (SetupConfigInteractively reg inp st file writeOk).file = file := by
  cases hc : collectAll reg inp with
  | error e' =>
    rw [setup_eq_err reg inp st file writeOk e' hc]
    exact ⟨rfl, rfl⟩
  | ok p =>
    obtain ⟨c, r⟩ := p
    rw [setup_eq_ok reg inp st file writeOk c r hc] at h
    exact absurd h (by simp)

theorem setup_allOrNothing_witness :
    (SetupConfigInteractively regW [] stEmpty none true).store = stEmpty
    ∧ (SetupConfigInteractively regW [] stEmpty none true).file = none :=
  setup_allOrNothing regW [] stEmpty none true "failed to get input method" rfl

/-- C7: a persistence failure is non-fatal: when the collection succeeded but
the config-file write fails, `SetupConfigInteractively` still returns the
fully assembled document without error, and the previous file is left in
place (the error is only printed, never propagated). -/
theorem saveFailure_nonfatal (reg : Registry) (inp : PromptIn) (st : Store)
    (file : Option Store) (doc : Doc) (rest : PromptIn)
    (hc : collectAll reg inp = .ok (doc, rest)) :
    (SetupConfigInteractively reg inp st file false).result = .ok doc
      ∧ (SetupConfigInteractively reg inp st file false).file = file := by
  rw [setup_eq_ok reg inp st file false doc rest hc]
  exact ⟨rfl, rfl⟩

theorem saveFailure_nonfatal_witness :
    (SetupConfigInteractively regW inpW stEmpty none false).result = .ok docW
    ∧ (SetupConfigInteractively regW inpW stEmpty none false).file = none :=
  saveFailure_nonfatal regW inpW stEmpty none docW [] rfl

/-- C1: round-trip: for every document `doc` assembled and persisted by
`SetupConfigInteractively` (with the write succeeding), loading the written
file succeeds and yields a document whose `inputMethod` and `outputMethod`
equal `doc`'s and whose `inputconfig` and `outputconfig` mappings are equal to
`doc`'s as association lists — hence with exactly the same key sets and each
value string-equal to the value originally entered. -/
theorem loadAfterPersist_roundTrip (reg : Registry) (inp : PromptIn) (st : Store)
    (file : Option Store) (doc : Doc)
    (h : (SetupConfigInteractively reg inp st file true).result = .ok doc) :
    isOkDoc (LoadConfig (SetupConfigInteractively reg inp st file true).file) = true
    ∧ exceptLookup (LoadConfig (SetupConfigInteractively reg inp st file true).file)
        "inputMethod" = assocLookup doc "inputMethod"
    ∧ exceptLookup (LoadConfig (SetupConfigInteractively reg inp st file true).file)
        "outputMethod" = assocLookup doc "outputMethod"
    ∧ exceptLookup (LoadConfig (SetupConfigInteractively reg inp st file true).file)
        "inputconfig" = assocLookup doc "inputconfig"
    ∧ exceptLookup (LoadConfig (SetupConfigInteractively reg inp st file true).file)
        "outputconfig" = assocLookup doc "outputconfig" := by
  cases hc : collectAll reg inp with
  | error e =>
    rw [setup_eq_err reg inp st file true e hc] at h
    exact absurd h (by simp)
  | ok p =>
    obtain ⟨c, r⟩ := p
    rw [setup_eq_ok reg inp st file true c r hc] at h
    have hcd : c = doc := by simpa using h
    subst hcd
    obtain ⟨im, om, ic, oc, va, tr, eh, hshape⟩ := collectAll_ok_shape reg inp c r hc
    subst hshape
    rw [setup_eq_ok reg inp st file true _ r hc]
    simp [saveConfig, LoadConfig, exceptLookup, isOkDoc, assocLookup, getString,
      getStringMap, setKey, List.foldl]

theorem loadAfterPersist_roundTrip_witness :
    isOkDoc (LoadConfig (SetupConfigInteractively regW inpW stEmpty none true).file) = true
    ∧ exceptLookup (LoadConfig (SetupConfigInteractively regW inpW stEmpty none true).file)
        "inputMethod" = assocLookup docW "inputMethod"
    ∧ exceptLookup (LoadConfig (SetupConfigInteractively regW inpW stEmpty none true).file)
        "outputMethod" = assocLookup docW "outputMethod"
    ∧ exceptLookup (LoadConfig (SetupConfigInteractively regW inpW stEmpty none true).file)
        "inputconfig" = assocLookup docW "inputconfig"
    ∧ exceptLookup (LoadConfig (SetupConfigInteractively regW inpW stEmpty none true).file)
        "outputconfig" = assocLookup docW "outputconfig" :=
  loadAfterPersist_roundTrip regW inpW stEmpty none docW rfl

/-- C8 counterexample: in the document that `SetupConfigInteractively`
assembles and persists, and in the document `LoadConfig` reloads, five of the
seven top-level keys are all-lowercase (`inputconfig`, `outputconfig`,
`validations`, `transformations`, `errorhandling`), not the camel-case
`inputConfig`/`outputConfig`/`errorHandling` of the claim: the camel-case
keys are absent from the assembled document, from the written file and from
the reloaded document. -/
theorem topLevelKeys_counterexample :
    (SetupConfigInteractively regW inpW stEmpty none true).result = .ok docW
    ∧ docW.map Prod.fst
        = ["inputMethod", "outputMethod", "inputconfig", "outputconfig",
           "validations", "transformations", "errorhandling"]
    ∧ assocLookup docW "inputConfig" = none
    ∧ assocLookup docW "errorHandling" = none
    ∧ getFileVal (SetupConfigInteractively regW inpW stEmpty none true).file "inputconfig"
        = some (.smap [("Path", "/in.csv")])
    ∧ getFileVal (SetupConfigInteractively regW inpW stEmpty none true).file "inputConfig"
        = none
    ∧ exceptLookup (LoadConfig (SetupConfigInteractively regW inpW stEmpty none true).file)
        "inputconfig" = some (.smap [("Path", "/in.csv")])
    ∧ exceptLookup (LoadConfig (SetupConfigInteractively regW inpW stEmpty none true).file)
        "inputConfig" = none :=
  ⟨rfl, rfl, rfl, rfl, rfl, rfl, rfl, rfl⟩

/-- C8 amended: the top-level keys of every assembled/persisted document and
of every loaded document are exactly `inputMethod` and `outputMethod` with the
case of §3 together with the all-lowercase `inputconfig`, `outputconfig`,
`validations`, `transformations` and `errorhandling`. -/
theorem topLevelKeys_amended :
    (∀ reg inp st file writeOk doc,
        (SetupConfigInteractively reg inp st file writeOk).result = .ok doc →
          doc.map Prod.fst
            = ["inputMethod", "outputMethod", "inputconfig", "outputconfig",
               "validations", "transformations", "errorhandling"])
    ∧ (∀ c d, LoadConfig (some c) = .ok d →
          d.map Prod.fst
            = ["inputMethod", "outputMethod", "inputconfig", "outputconfig",
               "errorhandling", "validations", "transformations"]) := by
  constructor
  · intro reg inp st file writeOk doc h
    cases hc : collectAll reg inp with
    | error e =>
      rw [setup_eq_err reg inp st file writeOk e hc] at h
      exact absurd h (by simp)
    | ok p =>
      obtain ⟨c, r⟩ := p
      rw [setup_eq_ok reg inp st file writeOk c r hc] at h
      have hcd : c = doc := by simpa using h
      obtain ⟨im, om, ic, oc, va, tr, eh, hshape⟩ := collectAll_ok_shape reg inp c r hc
      rw [← hcd, hshape]
      rfl
  · intro c d h
    unfold LoadConfig at h
    injection h with h1
    rw [← h1]
    rfl

theorem topLevelKeys_amended_witness :
    docW.map Prod.fst
      = ["inputMethod", "outputMethod", "inputconfig", "outputconfig",
         "validations", "transformations", "errorhandling"]
    ∧ ([("inputMethod", CVal.str ""), ("outputMethod", CVal.str ""),
        ("inputconfig", CVal.smap []), ("outputconfig", CVal.smap []),
        ("errorhandling", CVal.smap []), ("validations", CVal.str ""),
        ("transformations", CVal.str "")] : Doc).map Prod.fst
      = ["inputMethod", "outputMethod", "inputconfig", "outputconfig",
         "errorhandling", "validations", "transformations"] :=
  ⟨topLevelKeys_amended.1 regW inpW stEmpty none true docW rfl,
   topLevelKeys_amended.2 stEmpty
     [("inputMethod", CVal.str ""), ("outputMethod", CVal.str ""),
      ("inputconfig", CVal.smap []), ("outputconfig", CVal.smap []),
      ("errorhandling", CVal.smap []), ("validations", CVal.str ""),
      ("transformations", CVal.str "")] rfl⟩

/-- C9: persistence is not a function of the document alone: `saveConfig`
sets the document's keys on the process-global store and then writes the
whole store, so after persisting `doc9a` (which sets `extra`) and then
`doc9b` (which does not contain `extra`), the file written by the second call
still contains `extra` with the value set by the first call. -/
theorem saveConfig_global_store_leak :
    getFileVal (saveConfig doc9b (saveConfig doc9a stEmpty true none).1 true
        (saveConfig doc9a stEmpty true none).2).2 "extra" = some (.str "v")
    ∧ assocLookup doc9b "extra" = none
    ∧ getFileVal (saveConfig doc9b (saveConfig doc9a stEmpty true none).1 true
        (saveConfig doc9a stEmpty true none).2).2 "other" = some (.str "w") :=
  ⟨rfl, rfl, rfl⟩

/-- C10: the simpler variant of `LoadConfig` returns, for every readable
config file, a mapping with exactly the two keys `inputMethod` and
`outputMethod` — each bound to the stored string, or to `""` when absent —
and discards any stored `inputconfig`, `outputconfig`, `validations`,
`transformations` and `errorhandling` content. -/
theorem simpleLoadConfig_two_keys (c : Store) (d : List (String × String))
    (h : SimpleVariant.LoadConfig (some c) = .ok d) :
    d.map Prod.fst = ["inputMethod", "outputMethod"]
    ∧ (∀ s, c "inputMethod" = some (.str s) → assocLookup d "inputMethod" = some s)
    ∧ (c "inputMethod" = none → assocLookup d "inputMethod" = some "")
    ∧ (∀ s, c "outputMethod" = some (.str s) → assocLookup d "outputMethod" = some s)
    ∧ (c "outputMethod" = none → assocLookup d "outputMethod" = some "")
    ∧ assocLookup d "inputconfig" = none
    ∧ assocLookup d "outputconfig" = none
    ∧ assocLookup d "validations" = none
    ∧ assocLookup d "transformations" = none
    ∧ assocLookup d "errorhandling" = none := by
  unfold SimpleVariant.LoadConfig at h
  injection h with h1
  rw [← h1]
  refine ⟨rfl, ?_, ?_, ?_, ?_, rfl, rfl, rfl, rfl, rfl⟩
  · intro s hs; simp [assocLookup, getString, hs]
  · intro hs; simp [assocLookup, getString, hs]
  · intro s hs; simp [assocLookup, getString, hs]
  · intro hs; simp [assocLookup, getString, hs]

theorem simpleLoadConfig_two_keys_witness :
    ([("inputMethod", "CSV"), ("outputMethod", "SQL")] : List (String × String)).map Prod.fst
      = ["inputMethod", "outputMethod"]
    ∧ assocLookup [("inputMethod", "CSV"), ("outputMethod", "SQL")] "inputMethod" = some "CSV"
    ∧ assocLookup [("inputMethod", "CSV"), ("outputMethod", "SQL")] "inputconfig" = none :=
  ⟨(simpleLoadConfig_two_keys c10 [("inputMethod", "CSV"), ("outputMethod", "SQL")] rfl).1,
   (simpleLoadConfig_two_keys c10 [("inputMethod", "CSV"), ("outputMethod", "SQL")] rfl).2.1
     "CSV" rfl,
   (simpleLoadConfig_two_keys c10
     [("inputMethod", "CSV"), ("outputMethod", "SQL")] rfl).2.2.2.2.2.1⟩
